import Mathlib

/-
Shallow embedding of src/ipc/BIPC.c (the BIPC duplex packet channel over a
unix-domain stream socket).  The file models the channel construction paths
(BIPC_InitConnect, BIPC_InitAccept), the shared pipeline construction
(init_io), teardown (free_io, BIPC_Free), the interface getters and the
fault handler (error_handler).

Machinery the repository excerpt only calls (PacketProto.h, dead.h, the
SinglePacketBuffer body, the BSocket/BAddr constants) is modelled from the
spec; each such definition says so in its doc comment.  Everything else is a
direct translation of BIPC.c: fallible C calls become Bool oracles saying
whether the call succeeds, mutation of the BIPC struct becomes explicit
state passing, and every component Init/Free call is recorded in an event
trace so that allocation/release order is provable.
-/

/-- Fault tag for the stream source (BIPC.c line 25). -/
def COMPONENT_SOURCE : Int := 1

/-- Fault tag for the stream sink (BIPC.c line 26). -/
def COMPONENT_SINK : Int := 2

/-- Fault tag for the frame decoder (BIPC.c line 27). -/
def COMPONENT_DECODER : Int := 3

/-- Modelled from the spec: PACKETPROTO_MAXPAYLOAD (PacketProto.h is not in
src).  The wire format carries a fixed-width unsigned length field that must
represent values up to MAX_PAYLOAD; a 16-bit field gives the ceiling 65535. -/
def PACKETPROTO_MAXPAYLOAD : Int := 65535

/-- Modelled from the spec: the size of the frame length header
(PacketProto.h is not in src); a 16-bit length field occupies 2 bytes. -/
def packetproto_header_size : Int := 2

/-- Modelled from the spec: PACKETPROTO_ENCLEN (PacketProto.h is not in
src); an encoded frame is exactly header_size + payload length bytes. -/
def PACKETPROTO_ENCLEN (payload : Int) : Int := packetproto_header_size + payload

/-- Modelled from the spec: the unix-domain address-type tag (BSocket.h is
not in src).  Only its identity matters, never its numeric value. -/
def BADDR_TYPE_UNIX : Int := 3

/-- Modelled from the spec: the stream socket-type tag (BSocket.h is not in
src).  Only its identity matters, never its numeric value. -/
def BSOCKET_TYPE_STREAM : Int := 1

/-- The ASSERT lines of BIPC_InitConnect (BIPC.c lines 98-101). -/
def BIPC_InitConnect_assert (send_mtu recv_mtu : Int) : Prop :=
  send_mtu ≥ 0 ∧ send_mtu ≤ PACKETPROTO_MAXPAYLOAD ∧
  recv_mtu ≥ 0 ∧ recv_mtu ≤ PACKETPROTO_MAXPAYLOAD

/-- The ASSERT lines of BIPC_InitAccept (BIPC.c lines 139-140). -/
def BIPC_InitAccept_assert (send_mtu recv_mtu : Int) : Prop :=
  send_mtu ≥ 0 ∧ recv_mtu ≥ 0

instance (s r : Int) : Decidable (BIPC_InitConnect_assert s r) := by
  unfold BIPC_InitConnect_assert; infer_instance

instance (s r : Int) : Decidable (BIPC_InitAccept_assert s r) := by
  unfold BIPC_InitAccept_assert; infer_instance

/-- The pipeline component instances a BIPC struct holds (its fields in
BIPC.h order as used by BIPC.c). -/
inductive InstId
  | send_sink
  | send_pss
  | send_copier
  | send_encoder
  | send_buf
  | recv_source
  | recv_copier
  | recv_decoder
deriving DecidableEq

/-- Which side of a component an interface pointer designates. -/
inductive Dir
  | input
  | output
deriving DecidableEq

/-- An interface pointer: a side of one component instance of the channel. -/
structure Iface where
  inst : InstId
  dir : Dir
deriving DecidableEq

/-- StreamSocketSink_GetInput(&o->send_sink). -/
def StreamSocketSink_GetInput : Iface := ⟨InstId.send_sink, Dir.input⟩

/-- PacketCopier_GetInput for a copier instance of this channel. -/
def PacketCopier_GetInput (c : InstId) : Iface := ⟨c, Dir.input⟩

/-- PacketCopier_GetOutput for a copier instance of this channel. -/
def PacketCopier_GetOutput (c : InstId) : Iface := ⟨c, Dir.output⟩

/-- PacketProtoEncoder_GetOutput(&o->send_encoder). -/
def PacketProtoEncoder_GetOutput : Iface := ⟨InstId.send_encoder, Dir.output⟩

/-- PacketStreamSender_GetInput(&o->send_pss). -/
def PacketStreamSender_GetInput : Iface := ⟨InstId.send_pss, Dir.input⟩

/-- StreamSocketSource_GetOutput(&o->recv_source). -/
def StreamSocketSource_GetOutput : Iface := ⟨InstId.recv_source, Dir.output⟩

/-- The resources BIPC.c allocates and releases: the eight pipeline
components plus the transport socket. -/
inductive Res
  | send_sink
  | send_pss
  | send_copier
  | send_encoder
  | send_buf
  | recv_source
  | recv_copier
  | recv_decoder
  | sock
deriving DecidableEq

/-- One observable step of BIPC.c: a component Init that allocates, the
matching Free, the FlowErrorDomain init (which has no Free), the dead-var
and DebugObject operations, and an invocation of the user fault handler
carrying the opaque user context. -/
inductive Ev
  | ini : Res → Ev
  | fre : Res → Ev
  | domInit : Ev
  | deadInit : Ev
  | deadKill : Ev
  | dObjInit : Ev
  | dObjFree : Ev
  | callHandler : Nat → Ev
deriving DecidableEq

/-- The resource an event allocates, if any. -/
def allocOf : Ev → Option Res
  | Ev.ini r => some r
  | _ => none

/-- The resource an event releases, if any. -/
def freeOf : Ev → Option Res
  | Ev.fre r => some r
  | _ => none

/-- Resources allocated along a trace, in order. -/
def allocs (t : List Ev) : List Res := t.filterMap allocOf

/-- Resources released along a trace, in order. -/
def frees (t : List Ev) : List Res := t.filterMap freeOf

/-- Does the event belong to the send pipeline? -/
def isSendRes : Res → Bool
  | Res.send_sink => true
  | Res.send_pss => true
  | Res.send_copier => true
  | Res.send_encoder => true
  | Res.send_buf => true
  | _ => false

/-- Does the event belong to the receive pipeline? -/
def isRecvRes : Res → Bool
  | Res.recv_source => true
  | Res.recv_copier => true
  | Res.recv_decoder => true
  | _ => false

/-- Is the event an invocation of the user fault handler? -/
def isHandlerCall : Ev → Bool
  | Ev.callHandler _ => true
  | _ => false

/-- The pipeline wiring init_io (BIPC.c lines 46-79) establishes on success:
for each component the constructor arguments BIPC.c passes it — the fault
tag of its FlowErrorReporter, the interface it is attached to, its size
bound, and the pending group (kept as the reactor it came from). -/
structure IOState where
  send_sink_reporter : Int
  send_pss_input : Iface
  send_pss_mtu : Int
  send_copier_mtu : Int
  send_encoder_input : Iface
  send_buf_input : Iface
  send_buf_output : Iface
  send_buf_pg : Nat
  recv_source_reporter : Int
  recv_copier_mtu : Int
  recv_decoder_reporter : Int
  recv_decoder_input : Iface
  recv_decoder_output : Iface
  recv_decoder_pg : Nat
deriving DecidableEq

/-- init_io (BIPC.c lines 46-79).  spb_ok models SinglePacketBuffer_Init
succeeding, dec_ok models PacketProtoDecoder_Init succeeding (the two
fallible steps).  Returns the wiring on success (none on failure) together
with the trace of Init/Free calls in source order, including the cleanup
the fail2/fail1 labels perform. -/
def init_io (send_mtu recv_mtu : Int) (reactor : Nat) (spb_ok dec_ok : Bool) :
    Option IOState × List Ev :=
  let sendEvs : List Ev :=
    [Ev.domInit, Ev.ini Res.send_sink, Ev.ini Res.send_pss,
     Ev.ini Res.send_copier, Ev.ini Res.send_encoder]
  if spb_ok = false then
    (none, sendEvs ++
      [Ev.fre Res.send_encoder, Ev.fre Res.send_copier,
       Ev.fre Res.send_pss, Ev.fre Res.send_sink])
  else
    let evs2 := sendEvs ++
      [Ev.ini Res.send_buf, Ev.ini Res.recv_source, Ev.ini Res.recv_copier]
    if dec_ok = false then
      (none, evs2 ++
        [Ev.fre Res.recv_copier, Ev.fre Res.recv_source, Ev.fre Res.send_buf,
         Ev.fre Res.send_encoder, Ev.fre Res.send_copier,
         Ev.fre Res.send_pss, Ev.fre Res.send_sink])
    else
      (some
        { send_sink_reporter := COMPONENT_SINK
          send_pss_input := StreamSocketSink_GetInput
          send_pss_mtu := PACKETPROTO_ENCLEN send_mtu
          send_copier_mtu := send_mtu
          send_encoder_input := PacketCopier_GetOutput InstId.send_copier
          send_buf_input := PacketProtoEncoder_GetOutput
          send_buf_output := PacketStreamSender_GetInput
          send_buf_pg := reactor
          recv_source_reporter := COMPONENT_SOURCE
          recv_copier_mtu := recv_mtu
          recv_decoder_reporter := COMPONENT_DECODER
          recv_decoder_input := StreamSocketSource_GetOutput
          recv_decoder_output := PacketCopier_GetInput InstId.recv_copier
          recv_decoder_pg := reactor },
       evs2 ++ [Ev.ini Res.recv_decoder])

/-- free_io (BIPC.c lines 81-94): the Free calls in source order. -/
def free_io : List Ev :=
  [Ev.fre Res.recv_decoder, Ev.fre Res.recv_copier, Ev.fre Res.recv_source,
   Ev.fre Res.send_buf, Ev.fre Res.send_encoder, Ev.fre Res.send_copier,
   Ev.fre Res.send_pss, Ev.fre Res.send_sink]

/-- The transport socket as BIPC.c configures it: the reactor it is bound
to, the address/socket type passed to BSocket_Init, and the unix path it
was connected to (none for a socket obtained some other way). -/
structure SockState where
  reactor : Nat
  addr_type : Int
  sock_type : Int
  connected_to : Option Nat
deriving DecidableEq

/-- The BIPC struct: the caller arguments, the dead variable (true once
killed), the transport socket, the pipeline wiring and the DebugObject
validity flag. -/
structure BIPCState where
  handler : Nat
  user : Nat
  dead : Bool
  sock : SockState
  io : IOState
  d_obj : Bool
deriving DecidableEq

/-- BIPC_Free (BIPC.c lines 170-182): DebugObject_Free, free_io,
BSocket_Free, DEAD_KILL, in that order.  none models the DebugObject
assertion failing (the channel was already destroyed). -/
def BIPC_Free (o : BIPCState) : Option (BIPCState × List Ev) :=
  if o.d_obj = false then none
  else some ({ o with d_obj := false, dead := true },
    Ev.dObjFree :: free_io ++ [Ev.fre Res.sock, Ev.deadKill])

/-- BIPC_InitConnect (BIPC.c lines 96-135), after its ASSERT lines (those
are BIPC_InitConnect_assert).  sock_ok models BSocket_Init succeeding and
conn_ok models BSocket_ConnectUnix succeeding.  Returns the constructed
channel (none when the function returns 0) and the trace of its steps,
including the cleanup at the fail1/fail0 labels. -/
def BIPC_InitConnect (path : Nat) (send_mtu recv_mtu : Int)
    (handler user reactor : Nat) (sock_ok conn_ok spb_ok dec_ok : Bool) :
    Option BIPCState × List Ev :=
  if sock_ok = false then (none, [Ev.deadInit])
  else if conn_ok = false then
    (none, [Ev.deadInit, Ev.ini Res.sock, Ev.fre Res.sock])
  else
    let r := init_io send_mtu recv_mtu reactor spb_ok dec_ok
    match r.1 with
    | none => (none, Ev.deadInit :: Ev.ini Res.sock :: r.2 ++ [Ev.fre Res.sock])
    | some io =>
      (some { handler := handler, user := user, dead := false,
              sock := { reactor := reactor, addr_type := BADDR_TYPE_UNIX,
                        sock_type := BSOCKET_TYPE_STREAM,
                        connected_to := some path },
              io := io, d_obj := true },
       Ev.deadInit :: Ev.ini Res.sock :: r.2 ++ [Ev.dObjInit])

/-- BIPC_InitAccept (BIPC.c lines 137-168), after its ASSERT lines (those
are BIPC_InitAccept_assert).  accept_ok models Listener_Accept succeeding
and accepted_sock is the connected socket it yields.  Returns the
constructed channel (none when the function returns 0) and the trace of its
steps, including the cleanup at the fail1/fail0 labels. -/
def BIPC_InitAccept (accepted_sock : SockState) (send_mtu recv_mtu : Int)
    (handler user reactor : Nat) (accept_ok spb_ok dec_ok : Bool) :
    Option BIPCState × List Ev :=
  if accept_ok = false then (none, [Ev.deadInit])
  else
    let r := init_io send_mtu recv_mtu reactor spb_ok dec_ok
    match r.1 with
    | none => (none, Ev.deadInit :: Ev.ini Res.sock :: r.2 ++ [Ev.fre Res.sock])
    | some io =>
      (some { handler := handler, user := user, dead := false,
              sock := accepted_sock, io := io, d_obj := true },
       Ev.deadInit :: Ev.ini Res.sock :: r.2 ++ [Ev.dObjInit])

/-- BIPC_GetSendInterface (BIPC.c lines 184-189): DebugObject_Access, then
PacketCopier_GetInput(&o->send_copier).  none models the access assertion
failing on a destroyed channel. -/
def BIPC_GetSendInterface (o : BIPCState) : Option Iface :=
  if o.d_obj = false then none
  else some (PacketCopier_GetInput InstId.send_copier)

/-- BIPC_GetRecvInterface (BIPC.c lines 191-196): DebugObject_Access, then
PacketCopier_GetOutput(&o->recv_copier).  none models the access assertion
failing on a destroyed channel. -/
def BIPC_GetRecvInterface (o : BIPCState) : Option Iface :=
  if o.d_obj = false then none
  else some (PacketCopier_GetOutput InstId.recv_copier)

/-- error_handler (BIPC.c lines 29-44).  component is the FlowErrorDomain
tag; handler_kills models whether the user handler destroys the channel
(calls BIPC_Free on it) before returning.  DEAD_ENTER / DEAD_KILLED /
DEAD_LEAVE are modelled from the spec (dead.h is not in src): DEAD_KILLED
observes whether DEAD_KILL ran between ENTER and LEAVE.  none models a
failed debug assertion: an invalid tag, DebugObject_Access on a destroyed
channel, or ASSERT(DEAD_KILLED) when the handler returned without having
destroyed the channel. -/
def error_handler (o : BIPCState) (component : Int) (handler_kills : Bool) :
    Option (BIPCState × List Ev) :=
  if component = COMPONENT_SOURCE ∨ component = COMPONENT_SINK ∨
      component = COMPONENT_DECODER then
    if o.d_obj = false then none
    else if handler_kills = false then
      none
    else
      match BIPC_Free o with
      | none => none
      | some (o1, killEvs) => some (o1, Ev.callHandler o.user :: killEvs)
  else none

/-- A sequence of fault deliveries against a channel: each delivery runs
error_handler with its tag and its handler behavior; a failed assertion
aborts the run.  Returns all events that occurred. -/
def deliver_faults : BIPCState → List (Int × Bool) → List Ev
  | _, [] => []
  | o, (c, k) :: rest =>
    match error_handler o c k with
    | none => []
    | some (o1, evs) => evs ++ deliver_faults o1 rest

/-- Value of the dead flag after a trace, given its value before: deadInit
sets it alive, deadKill kills it, every other event leaves it unchanged. -/
def deadAfter (d : Bool) : List Ev → Bool
  | [] => d
  | Ev.deadInit :: rest => deadAfter false rest
  | Ev.deadKill :: rest => deadAfter true rest
  | _ :: rest => deadAfter d rest

/-- Modelled from the spec: one step of the Stream Bridge
(SinglePacketBuffer, whose body is not in src).  The state is the list of
frames held; a new frame is pulled from the encoder only when the buffer is
empty, and the held frame is fully flushed to the sender before the next
pull. -/
inductive SPB_step : List Int → List Int → Prop
  | pull (f : Int) : SPB_step [] [f]
  | flush (f : Int) : SPB_step [f] []

/-- States the Stream Bridge can reach from its initial empty state. -/
inductive SPB_reachable : List Int → Prop
  | init : SPB_reachable []
  | step {s t : List Int} : SPB_reachable s → SPB_step s t → SPB_reachable t

/-- The single-frame bound of the Stream Bridge: every reachable state
holds at most one frame. -/
def SPB_single_frame : Prop :=
  ∀ st : List Int, SPB_reachable st → st.length ≤ 1

/-- A concrete live channel, exactly the state a successful
BIPC_InitConnect 0 5 5 7 9 2 produces. -/
def chan0 : BIPCState :=
  { handler := 7, user := 9, dead := false,
    sock := { reactor := 2, addr_type := BADDR_TYPE_UNIX,
              sock_type := BSOCKET_TYPE_STREAM, connected_to := some 0 },
    io := { send_sink_reporter := COMPONENT_SINK
            send_pss_input := StreamSocketSink_GetInput
            send_pss_mtu := PACKETPROTO_ENCLEN 5
            send_copier_mtu := 5
            send_encoder_input := PacketCopier_GetOutput InstId.send_copier
            send_buf_input := PacketProtoEncoder_GetOutput
            send_buf_output := PacketStreamSender_GetInput
            send_buf_pg := 2
            recv_source_reporter := COMPONENT_SOURCE
            recv_copier_mtu := 5
            recv_decoder_reporter := COMPONENT_DECODER
            recv_decoder_input := StreamSocketSource_GetOutput
            recv_decoder_output := PacketCopier_GetInput InstId.recv_copier
            recv_decoder_pg := 2 },
    d_obj := true }

/-- Sanity: chan0 is exactly the successful result of BIPC_InitConnect with
path 0, both MTUs 5, handler 7, user 9, reactor 2. -/
theorem chan0_is_connect_result :
    (BIPC_InitConnect 0 5 5 7 9 2 true true true true).1 = some chan0 := by
  decide

/-- On a destroyed channel every fault delivery fails its access assertion
and performs nothing. -/
theorem deliver_faults_destroyed (o : BIPCState) (fs : List (Int × Bool))
    (h : o.d_obj = false) : deliver_faults o fs = [] := by
  cases fs with
  | nil => rfl
  | cons p rest =>
    obtain ⟨c, k⟩ := p
    simp [deliver_faults, error_handler, h]

/-- Characterization of a successful error_handler run: the tag was one of
the three components, the channel was live, the handler destroyed it, and
the events are exactly one handler call (carrying only the user context)
followed by the teardown of BIPC_Free. -/
theorem error_handler_some (o : BIPCState) (c : Int) (k : Bool)
    (o1 : BIPCState) (evs : List Ev)
    (h : error_handler o c k = some (o1, evs)) :
    evs = Ev.callHandler o.user ::
      (Ev.dObjFree :: free_io ++ [Ev.fre Res.sock, Ev.deadKill]) ∧
    o1 = { o with d_obj := false, dead := true } ∧
    o.d_obj = true ∧ k = true := by
  by_cases hv : (c = COMPONENT_SOURCE ∨ c = COMPONENT_SINK ∨ c = COMPONENT_DECODER)
  · unfold error_handler at h
    rw [if_pos hv] at h
    by_cases hd : o.d_obj = false
    · rw [if_pos hd] at h; exact absurd h (by simp)
    · rw [if_neg hd] at h
      by_cases hk : k = false
      · rw [if_pos hk] at h; exact absurd h (by simp)
      · rw [if_neg hk] at h
        unfold BIPC_Free at h
        rw [if_neg hd] at h
        simp only [Option.some.injEq, Prod.mk.injEq] at h
        refine ⟨h.2.symm, h.1.symm, ?_, ?_⟩
        · cases ho : o.d_obj
          · exact absurd ho hd
          · rfl
        · cases k
          · exact absurd rfl hk
          · rfl
  · unfold error_handler at h
    rw [if_neg hv] at h
    exact absurd h (by simp)

/-- C1 counterexample: the accept path does not enforce the MAX_PAYLOAD
upper bound: send_mtu = 65536 passes BIPC_InitAccept's checked precondition
although it exceeds PACKETPROTO_MAXPAYLOAD (BIPC_InitConnect rejects the
same MTU), so the bound is not checked uniformly on both paths. -/
theorem c1_counterexample :
    BIPC_InitAccept_assert 65536 0 ∧
    ¬ ((65536 : Int) ≤ PACKETPROTO_MAXPAYLOAD) ∧
    ¬ BIPC_InitConnect_assert 65536 0 := by
  refine ⟨?_, ?_, ?_⟩ <;> decide

/-- C1 (amended): BIPC_InitConnect validates both MTUs against
0..MAX_PAYLOAD as checked preconditions; BIPC_InitAccept validates only
that both MTUs are nonnegative — the MAX_PAYLOAD upper bound is enforced on
the connect path alone, so the connect precondition strictly implies the
accept one. -/
theorem c1_mtu_preconditions (s r : Int) :
    (BIPC_InitConnect_assert s r ↔
      0 ≤ s ∧ s ≤ PACKETPROTO_MAXPAYLOAD ∧
      0 ≤ r ∧ r ≤ PACKETPROTO_MAXPAYLOAD) ∧
    (BIPC_InitAccept_assert s r ↔ 0 ≤ s ∧ 0 ≤ r) ∧
    (BIPC_InitConnect_assert s r → BIPC_InitAccept_assert s r) := by
  unfold BIPC_InitConnect_assert BIPC_InitAccept_assert PACKETPROTO_MAXPAYLOAD
  omega

/-- C2: every fault delivered through the error domain by any of the three
stages invokes the channel fault handler exactly once, passing only the
opaque user context (the events are the same whatever the tag), and across
any sequence of fault deliveries the handler runs at most once per channel:
the first successful delivery leaves the channel destroyed and every later
delivery fails its access assertion. -/
theorem c2_single_fault_handler :
    (∀ (o : BIPCState) (c : Int) (k : Bool) (o1 : BIPCState) (evs : List Ev),
       error_handler o c k = some (o1, evs) →
       evs.filter isHandlerCall = [Ev.callHandler o.user] ∧
       o1.d_obj = false) ∧
    (∀ (o : BIPCState) (fs : List (Int × Bool)),
       ((deliver_faults o fs).filter isHandlerCall).length ≤ 1) := by
  constructor
  · intro o c k o1 evs h
    obtain ⟨he, ho1, -, -⟩ := error_handler_some o c k o1 evs h
    subst he
    constructor
    · simp [isHandlerCall, free_io, List.filter]
    · rw [ho1]
  · intro o fs
    induction fs generalizing o with
    | nil => simp [deliver_faults]
    | cons p rest ih =>
      obtain ⟨c, k⟩ := p
      cases hE : error_handler o c k with
      | none => simp [deliver_faults, hE]
      | some v =>
        obtain ⟨o1, evs⟩ := v
        obtain ⟨he, ho1, -, -⟩ := error_handler_some o c k o1 evs hE
        have hdead : o1.d_obj = false := by rw [ho1]
        simp only [deliver_faults, hE, deliver_faults_destroyed o1 rest hdead]
        subst he
        simp [isHandlerCall, free_io, List.filter]

/-- C3 counterexample: on the live channel chan0, a fault whose handler does
not destroy the channel (destruction deferred until after the handler
returns) makes error_handler fail the post-handler ASSERT(DEAD_KILLED)
debug assertion: the destroy-after pattern is not assertion-free. -/
theorem c3_counterexample :
    chan0.d_obj = true ∧ chan0.dead = false ∧
    error_handler chan0 COMPONENT_SOURCE false = none := by
  refine ⟨rfl, rfl, ?_⟩
  decide

/-- C3 (amended): the caller must destroy the channel from within the fault
handler: when it does, error_handler performs exactly one handler call, the
channel ends destroyed, and no further internal continuation of the channel
runs (every later delivery fails its access assertion and performs
nothing); when destruction is instead deferred to after the handler
returns, the post-handler ASSERT(DEAD_KILLED) debug assertion fails. -/
theorem c3_destroy_within_handler (o : BIPCState) (c : Int)
    (hd : o.d_obj = true)
    (hc : c = COMPONENT_SOURCE ∨ c = COMPONENT_SINK ∨ c = COMPONENT_DECODER) :
    error_handler o c true =
      some ({ o with d_obj := false, dead := true },
        Ev.callHandler o.user ::
          (Ev.dObjFree :: free_io ++ [Ev.fre Res.sock, Ev.deadKill])) ∧
    error_handler o c false = none ∧
    (∀ fs, deliver_faults { o with d_obj := false, dead := true } fs = []) := by
  have hfree : BIPC_Free o =
      some ({ o with d_obj := false, dead := true },
        Ev.dObjFree :: free_io ++ [Ev.fre Res.sock, Ev.deadKill]) := by
    unfold BIPC_Free
    rw [if_neg (by simp [hd])]
  refine ⟨?_, ?_, ?_⟩
  · unfold error_handler
    rw [if_pos hc, if_neg (by simp [hd]), if_neg (by simp), hfree]
  · unfold error_handler
    rw [if_pos hc, if_neg (by simp [hd]), if_pos rfl]
  · intro fs
    exact deliver_faults_destroyed _ fs rfl

/-- C3 witness: the amended claim at the concrete live channel chan0 with
the stream-source fault tag. -/
theorem c3_witness :
    error_handler chan0 COMPONENT_SOURCE true =
      some ({ chan0 with d_obj := false, dead := true },
        Ev.callHandler chan0.user ::
          (Ev.dObjFree :: free_io ++ [Ev.fre Res.sock, Ev.deadKill])) ∧
    error_handler chan0 COMPONENT_SOURCE false = none ∧
    (∀ fs, deliver_faults { chan0 with d_obj := false, dead := true } fs = []) :=
  c3_destroy_within_handler chan0 COMPONENT_SOURCE rfl (Or.inl rfl)

/-- C4: whenever construction fails, exactly the resources allocated before
the failing step have been released when the call returns (the released
multiset equals the allocated one), on both paths; step by step on the
connect path: socket-creation failure releases nothing, connect failure
releases only the socket, a pipeline-construction failure releases the
already-built pipeline components and then the socket. -/
theorem c4_failed_construction_releases_all (path : Nat) (s r : Int)
    (hh u re : Nat) (acc : SockState) (a b c d : Bool) :
    ((BIPC_InitConnect path s r hh u re a b c d).1 = none →
      (frees (BIPC_InitConnect path s r hh u re a b c d).2).Perm
        (allocs (BIPC_InitConnect path s r hh u re a b c d).2)) ∧
    ((BIPC_InitAccept acc s r hh u re b c d).1 = none →
      (frees (BIPC_InitAccept acc s r hh u re b c d).2).Perm
        (allocs (BIPC_InitAccept acc s r hh u re b c d).2)) ∧
    frees (BIPC_InitConnect path s r hh u re false b c d).2 = [] ∧
    allocs (BIPC_InitConnect path s r hh u re false b c d).2 = [] ∧
    frees (BIPC_InitConnect path s r hh u re true false c d).2 = [Res.sock] ∧
    allocs (BIPC_InitConnect path s r hh u re true false c d).2 = [Res.sock] ∧
    frees (BIPC_InitAccept acc s r hh u re false c d).2 = [] ∧
    allocs (BIPC_InitAccept acc s r hh u re false c d).2 = [] ∧
    frees (BIPC_InitConnect path s r hh u re true true false d).2 =
      [Res.send_encoder, Res.send_copier, Res.send_pss, Res.send_sink,
       Res.sock] ∧
    frees (BIPC_InitConnect path s r hh u re true true true false).2 =
      [Res.recv_copier, Res.recv_source, Res.send_buf, Res.send_encoder,
       Res.send_copier, Res.send_pss, Res.send_sink, Res.sock] := by
  cases a <;> cases b <;> cases c <;> cases d <;>
    refine ⟨?_, ?_, ?_, ?_, ?_, ?_, ?_, ?_, ?_, ?_⟩ <;>
    first
      | rfl
      | (intro h; exact absurd h (Option.some_ne_none _))
      | (intro h; exact List.perm_iff_count.mpr (fun x => by cases x <;> rfl))

/-- C5: BIPC_Free releases the receive pipeline first, then the send
pipeline, each in exactly the reverse of the order in which init_io
constructed its components, and releases the transport socket only after
both pipelines. -/
theorem c5_reverse_teardown_order (s r : Int) (re : Nat) (o : BIPCState)
    (hd : o.d_obj = true) (o1 : BIPCState) (evs : List Ev)
    (hf : BIPC_Free o = some (o1, evs)) :
    frees evs =
      ((allocs (init_io s r re true true).2).filter isRecvRes).reverse ++
      ((allocs (init_io s r re true true).2).filter isSendRes).reverse ++
      [Res.sock] := by
  unfold BIPC_Free at hf
  rw [if_neg (by simp [hd])] at hf
  simp only [Option.some.injEq, Prod.mk.injEq] at hf
  rw [← hf.2]
  rfl

/-- C5 witness: the teardown order at the concrete channel chan0. -/
theorem c5_witness :
    frees (Ev.dObjFree :: free_io ++ [Ev.fre Res.sock, Ev.deadKill]) =
      ((allocs (init_io 5 5 2 true true).2).filter isRecvRes).reverse ++
      ((allocs (init_io 5 5 2 true true).2).filter isSendRes).reverse ++
      [Res.sock] :=
  c5_reverse_teardown_order 5 5 2 chan0 rfl
    { chan0 with d_obj := false, dead := true }
    (Ev.dObjFree :: free_io ++ [Ev.fre Res.sock, Ev.deadKill]) rfl

/-- C6: from the point where a connected transport exists, the two
construction paths coincide: with the same MTUs, handler, user context and
reactor, BIPC_InitAccept on the connected unix stream socket returns
exactly what BIPC_InitConnect returns (state and trace), the pipeline part
of the state is the output of the shared init_io on both, and the two
channels expose the same send and receive interfaces. -/
theorem c6_paths_converge (path : Nat) (s r : Int) (hh u re : Nat)
    (spb dec : Bool) :
    BIPC_InitAccept
        { reactor := re, addr_type := BADDR_TYPE_UNIX,
          sock_type := BSOCKET_TYPE_STREAM, connected_to := some path }
        s r hh u re true spb dec =
      BIPC_InitConnect path s r hh u re true true spb dec ∧
    Option.map (fun o => o.io)
        (BIPC_InitConnect path s r hh u re true true spb dec).1 =
      (init_io s r re spb dec).1 ∧
    Option.map BIPC_GetSendInterface
        (BIPC_InitAccept
          { reactor := re, addr_type := BADDR_TYPE_UNIX,
            sock_type := BSOCKET_TYPE_STREAM, connected_to := some path }
          s r hh u re true spb dec).1 =
      Option.map BIPC_GetSendInterface
        (BIPC_InitConnect path s r hh u re true true spb dec).1 ∧
    Option.map BIPC_GetRecvInterface
        (BIPC_InitAccept
          { reactor := re, addr_type := BADDR_TYPE_UNIX,
            sock_type := BSOCKET_TYPE_STREAM, connected_to := some path }
          s r hh u re true spb dec).1 =
      Option.map BIPC_GetRecvInterface
        (BIPC_InitConnect path s r hh u re true true spb dec).1 := by
  cases spb <;> cases dec <;> exact ⟨rfl, rfl, rfl, rfl⟩

/-- Every reachable state of the Stream Bridge holds at most one frame. -/
theorem SPB_reachable_le_one {st : List Int} (h : SPB_reachable st) :
    st.length ≤ 1 := by
  induction h with
  | init => simp
  | step _ hstep _ => cases hstep <;> simp

/-- C7: the byte-stream stage below the bridge is constructed with capacity
exactly PACKETPROTO_ENCLEN(send_mtu), the encoded length of one
maximum-size packet (header size + send MTU), and the bridge holds at most
one in-flight frame in every reachable state. -/
theorem c7_single_frame_staging (s r : Int) (re : Nat) :
    Option.map (fun io => io.send_pss_mtu) (init_io s r re true true).1 =
      some (PACKETPROTO_ENCLEN s) ∧
    PACKETPROTO_ENCLEN s = packetproto_header_size + s ∧
    SPB_single_frame := by
  refine ⟨rfl, rfl, ?_⟩
  intro st h
  exact SPB_reachable_le_one h

/-- C8: on a successfully constructed channel (either path), before
BIPC_Free, BIPC_GetSendInterface is the input side of the send-side Packet
Copier and BIPC_GetRecvInterface the output side of the receive-side
Packet Copier — the very copier instances init_io wired into the pipelines:
the send copier's output feeds the encoder and its MTU is the send MTU, the
receive copier's input is fed by the decoder and its MTU is the recv MTU. -/
theorem c8_interface_identity (path : Nat) (s r : Int) (hh u re : Nat)
    (acc : SockState) (o oa : BIPCState)
    (hc : (BIPC_InitConnect path s r hh u re true true true true).1 = some o)
    (ha : (BIPC_InitAccept acc s r hh u re true true true).1 = some oa) :
    BIPC_GetSendInterface o = some (PacketCopier_GetInput InstId.send_copier) ∧
    o.io.send_encoder_input = PacketCopier_GetOutput InstId.send_copier ∧
    o.io.send_copier_mtu = s ∧
    BIPC_GetRecvInterface o = some (PacketCopier_GetOutput InstId.recv_copier) ∧
    o.io.recv_decoder_output = PacketCopier_GetInput InstId.recv_copier ∧
    o.io.recv_copier_mtu = r ∧
    BIPC_GetSendInterface oa = BIPC_GetSendInterface o ∧
    BIPC_GetRecvInterface oa = BIPC_GetRecvInterface o := by
  have hco := Option.some.inj hc
  have hao := Option.some.inj ha
  subst hco
  subst hao
  exact ⟨rfl, rfl, rfl, rfl, rfl, rfl, rfl, rfl⟩

/-- C8 witness: the interface identity at the concrete channel chan0,
reached through both construction paths. -/
theorem c8_witness :
    BIPC_GetSendInterface chan0 =
      some (PacketCopier_GetInput InstId.send_copier) ∧
    chan0.io.send_encoder_input = PacketCopier_GetOutput InstId.send_copier ∧
    chan0.io.send_copier_mtu = 5 ∧
    BIPC_GetRecvInterface chan0 =
      some (PacketCopier_GetOutput InstId.recv_copier) ∧
    chan0.io.recv_decoder_output = PacketCopier_GetInput InstId.recv_copier ∧
    chan0.io.recv_copier_mtu = 5 ∧
    BIPC_GetSendInterface chan0 = BIPC_GetSendInterface chan0 ∧
    BIPC_GetRecvInterface chan0 = BIPC_GetRecvInterface chan0 :=
  c8_interface_identity 0 5 5 7 9 2 chan0.sock chan0 chan0 rfl rfl

/-- C9: every channel BIPC_InitConnect constructs holds a unix-domain
stream socket (BADDR_TYPE_UNIX, BSOCKET_TYPE_STREAM) connected to the
supplied filesystem path and bound to the supplied reactor, whatever the
caller's arguments: the transport type is fixed by the implementation. -/
theorem c9_unix_stream_transport (path : Nat) (s r : Int) (hh u re : Nat)
    (a b c d : Bool) (o : BIPCState)
    (h : (BIPC_InitConnect path s r hh u re a b c d).1 = some o) :
    o.sock.addr_type = BADDR_TYPE_UNIX ∧
    o.sock.sock_type = BSOCKET_TYPE_STREAM ∧
    o.sock.connected_to = some path ∧
    o.sock.reactor = re := by
  cases a <;> cases b <;> cases c <;> cases d <;>
    first
      | exact absurd h.symm (Option.some_ne_none _)
      | (obtain rfl := Option.some.inj h; exact ⟨rfl, rfl, rfl, rfl⟩)

/-- C9 witness: the transport of the concrete channel chan0. -/
theorem c9_witness :
    chan0.sock.addr_type = BADDR_TYPE_UNIX ∧
    chan0.sock.sock_type = BSOCKET_TYPE_STREAM ∧
    chan0.sock.connected_to = some 0 ∧
    chan0.sock.reactor = 2 :=
  c9_unix_stream_transport 0 5 5 7 9 2 true true true true chan0 rfl

/-- C10: on both construction paths the dead variable is initialized alive
as the very first step, before any fallible operation, and construction
never kills it (whatever succeeds or fails, the flag reads alive after the
trace); a successfully constructed channel starts alive; BIPC_Free is the
only operation that kills the flag, and it does so exactly once, as its
final action; error_handler changes the flag only by the handler running
BIPC_Free from inside itself. -/
theorem c10_liveness_flag_discipline (path : Nat) (s r : Int)
    (hh u re : Nat) (acc : SockState) (a b c d : Bool) :
    (((BIPC_InitConnect path s r hh u re a b c d).2).head? =
        some Ev.deadInit ∧
      ((BIPC_InitConnect path s r hh u re a b c d).2).count Ev.deadKill = 0 ∧
      deadAfter true (BIPC_InitConnect path s r hh u re a b c d).2 = false ∧
      (((BIPC_InitConnect path s r hh u re a b c d).1).map
          (fun o => o.dead)).getD false = false) ∧
    (((BIPC_InitAccept acc s r hh u re b c d).2).head? = some Ev.deadInit ∧
      ((BIPC_InitAccept acc s r hh u re b c d).2).count Ev.deadKill = 0 ∧
      deadAfter true (BIPC_InitAccept acc s r hh u re b c d).2 = false ∧
      (((BIPC_InitAccept acc s r hh u re b c d).1).map
          (fun o => o.dead)).getD false = false) ∧
    (∀ (o o1 : BIPCState) (evs : List Ev),
      BIPC_Free o = some (o1, evs) →
      o1.dead = true ∧ evs.count Ev.deadKill = 1 ∧
      evs.getLast? = some Ev.deadKill) ∧
    (∀ (o : BIPCState) (c2 : Int) (k : Bool) (o1 : BIPCState)
        (evs : List Ev),
      error_handler o c2 k = some (o1, evs) →
      BIPC_Free o = some (o1, evs.tail)) := by
  refine ⟨?_, ?_, ?_, ?_⟩
  · cases a <;> cases b <;> cases c <;> cases d <;>
      exact ⟨rfl, rfl, rfl, rfl⟩
  · cases b <;> cases c <;> cases d <;> exact ⟨rfl, rfl, rfl, rfl⟩
  · intro o o1 evs h
    unfold BIPC_Free at h
    by_cases hd : o.d_obj = false
    · rw [if_pos hd] at h
      exact absurd h (by simp)
    · rw [if_neg hd] at h
      simp only [Option.some.injEq, Prod.mk.injEq] at h
      refine ⟨by rw [← h.1], ?_, ?_⟩
      · rw [← h.2]; rfl
      · rw [← h.2]; rfl
  · intro o c2 k o1 evs h
    obtain ⟨he, ho1, hdo, -⟩ := error_handler_some o c2 k o1 evs h
    subst he
    unfold BIPC_Free
    rw [if_neg (by simp [hdo]), ho1]
    rfl
